import Mathlib

/-!
Shallow embedding of `src/extensions/nuphy-checkout-validation/src/cart_validations_generate_run.js`
(a Shopify checkout cart-validation extension) and proofs of the specified
properties of `cartValidationsGenerateRun`.

JS-specific behaviour is modelled explicitly:
* optional / missing fields become `Option`;
* the running sum `mysteryBoxQuantity` lives in `JSNum`, where adding a
  missing (`undefined`) quantity yields `JSNum.nan` and every comparison
  with `nan` is `false`, matching JS number semantics;
* the truthiness test `if (!productId) continue` also skips an empty-string
  identifier, matching JS falsiness of `""`.
-/

namespace CartValidation

/-- A product reference; `id` is optional because a malformed line item may
lack the field (`merchandise.product.id` may be `undefined` in JS). -/
structure Product where
  id : Option String
deriving DecidableEq

/-- The merchandise object of a cart line: a `__typename` tag and an optional
product reference (`merchandise.product` may be `null`). -/
structure Merchandise where
  typename : String
  product : Option Product
deriving DecidableEq

/-- A cart line item. `quantity` is optional (a malformed line may lack it)
and `merchandise` is optional (`line.merchandise` may be `undefined`). -/
structure CartLine where
  quantity : Option Int
  merchandise : Option Merchandise
deriving DecidableEq

/-- The buyer journey object; `step` may be absent. -/
structure BuyerJourney where
  step : Option String
deriving DecidableEq

/-- The cart: an ordered list of line items. -/
structure Cart where
  lines : List CartLine
deriving DecidableEq

/-- The input of `cartValidationsGenerateRun`; `buyerJourney` may be absent
(the code reads it as `input?.buyerJourney?.step`). -/
structure Input where
  buyerJourney : Option BuyerJourney
  cart : Cart
deriving DecidableEq

/-- A validation error record `{ message, target }`. -/
structure ValidationError where
  message : String
  target : String
deriving DecidableEq

/-- The payload of a `validationAdd` operation. -/
structure ValidationAdd where
  errors : List ValidationError
deriving DecidableEq

/-- One operation of the result; in this extension it is always a
`validationAdd`. -/
structure Operation where
  validationAdd : ValidationAdd
deriving DecidableEq

/-- The result `{ operations }` of `cartValidationsGenerateRun`. -/
structure RunResult where
  operations : List Operation
deriving DecidableEq

/-- One environment's configuration: the two fixed product-identifier sets
(modelled as lists with decidable membership; the JS `Set.has` is
membership). -/
structure Config where
  MYSTERY_BOX_IDS : List String
  DOLLAR_PRODUCT_IDS : List String
deriving DecidableEq

/-- The `test` entry of `CONFIG`. -/
def CONFIG_test : Config :=
  { MYSTERY_BOX_IDS :=
      ["gid://shopify/Product/8953675907329",
       "gid://shopify/Product/8953675940097"]
    DOLLAR_PRODUCT_IDS :=
      ["gid://shopify/Product/8953676398849",
       "gid://shopify/Product/8953676103937"] }

/-- The `production` entry of `CONFIG`. -/
def CONFIG_production : Config :=
  { MYSTERY_BOX_IDS :=
      ["gid://shopify/Product/7867011006573",
       "gid://shopify/Product/7867007238253"]
    DOLLAR_PRODUCT_IDS :=
      ["gid://shopify/Product/7824752115821",
       "gid://shopify/Product/7843318890605"] }

/-- The environment selector constant; the source sets it to `"test"`. -/
def ENVIRONMENT : String := "test"

/-- The configuration selected by `CONFIG[ENVIRONMENT]`. -/
def currentConfig : Config :=
  if ENVIRONMENT = "test" then CONFIG_test else CONFIG_production

/-- A JS number that is either an actual integer or `NaN`.  The running
bucket-A total is a JS number: adding `undefined` to it gives `NaN`. -/
inductive JSNum where
  | num (n : Int)
  | nan
deriving DecidableEq

/-- JS addition of an optional integer (a possibly-missing `quantity`) to a
running JS number: a missing operand or a `NaN` accumulator yields `NaN`. -/
def jsAdd : JSNum → Option Int → JSNum
  | _, none => JSNum.nan
  | JSNum.nan, some _ => JSNum.nan
  | JSNum.num n, some q => JSNum.num (n + q)

/-- JS comparison `x > k` of a JS number with an integer literal: `false`
whenever the left operand is `NaN`. -/
def jsGt : JSNum → Int → Bool
  | JSNum.nan, _ => false
  | JSNum.num n, k => decide (k < n)

/-- The product identifier extracted from a cart line, as the source computes
it: `null` unless `merchandise.__typename === "ProductVariant"` and
`merchandise.product` is truthy; then `merchandise.product.id`, which the
subsequent `if (!productId) continue` also discards when missing or the empty
string (both falsy in JS). -/
def lineProductId (line : CartLine) : Option String :=
  match line.merchandise with
  | none => none
  | some m =>
    if m.typename = "ProductVariant" then
      match m.product with
      | none => none
      | some p =>
        match p.id with
        | none => none
        | some s => if s = "" then none else some s
    else none

/-- The three accumulators of the classification pass. -/
structure Tally where
  mysteryBoxQuantity : JSNum
  dollarProductExists : Bool
  hasOtherProducts : Bool
deriving DecidableEq

/-- Initial accumulator values (`0`, `false`, `false`). -/
def initTally : Tally :=
  { mysteryBoxQuantity := JSNum.num 0
    dollarProductExists := false
    hasOtherProducts := false }

/-- One iteration of the classification loop: skip lines without a product
identifier, otherwise add the quantity for bucket-A identifiers, or set the
presence flag for bucket-B respectively other identifiers. -/
def processLine (cfg : Config) (t : Tally) (line : CartLine) : Tally :=
  match lineProductId line with
  | none => t
  | some pid =>
    if pid ∈ cfg.MYSTERY_BOX_IDS then
      { t with mysteryBoxQuantity := jsAdd t.mysteryBoxQuantity line.quantity }
    else if pid ∈ cfg.DOLLAR_PRODUCT_IDS then
      { t with dollarProductExists := true }
    else
      { t with hasOtherProducts := true }

/-- Rule 1 error record pushed by the source. -/
def rule1Error : ValidationError :=
  { message := "You can only purchase one Mystery Box per order."
    target := "cart" }

/-- Rule 2 error record pushed by the source. -/
def rule2Error : ValidationError :=
  { message := "Mystery Box and deposit products can’t be bought together. "
    target := "cart" }

/-- Rule 3 error record pushed by the source. -/
def rule3Error : ValidationError :=
  { message := "Mystery Box cannot be purchased alone. Please add something else to your cart."
    target := "cart" }

/-- The step read from the input, `input?.buyerJourney?.step`. -/
def stepOf (input : Input) : Option String :=
  match input.buyerJourney with
  | none => none
  | some bj => bj.step

/-- The embedding of `cartValidationsGenerateRun`: stage gate, classification
pass over the lines, then the three rules in order (all gated on
`mysteryBoxQuantity > 0`), wrapped in a single `validationAdd` operation. -/
def cartValidationsGenerateRun (input : Input) : RunResult :=
  let step := stepOf input
  let isCheckoutPhase :=
    step = some "CHECKOUT_INTERACTION" ∨ step = some "CHECKOUT_COMPLETION"
  if ¬ isCheckoutPhase then
    { operations := [{ validationAdd := { errors := [] } }] }
  else
    let t := input.cart.lines.foldl (processLine currentConfig) initTally
    let errors :=
      if jsGt t.mysteryBoxQuantity 0 then
        (if jsGt t.mysteryBoxQuantity 1 then [rule1Error] else []) ++
        (if t.dollarProductExists then [rule2Error] else []) ++
        (if t.hasOtherProducts = false ∧ t.dollarProductExists = false then
          [rule3Error] else [])
      else []
    { operations := [{ validationAdd := { errors := errors } }] }

/-- The error list carried by the result (the result always holds exactly one
operation; this flattens whatever is there). -/
def errorsOf (input : Input) : List ValidationError :=
  ((cartValidationsGenerateRun input).operations.map
    (fun op => op.validationAdd.errors)).flatten

/-- A line contributes to the bucket-A quantity total exactly when its
product identifier is in `MYSTERY_BOX_IDS`. -/
def isBucketA (cfg : Config) (l : CartLine) : Bool :=
  match lineProductId l with
  | some pid => decide (pid ∈ cfg.MYSTERY_BOX_IDS)
  | none => false

/-- A line sets `dollarProductExists` exactly when its product identifier is
outside `MYSTERY_BOX_IDS` (the first branch wins) and in
`DOLLAR_PRODUCT_IDS`. -/
def isBucketB (cfg : Config) (l : CartLine) : Bool :=
  match lineProductId l with
  | some pid => decide (pid ∉ cfg.MYSTERY_BOX_IDS ∧ pid ∈ cfg.DOLLAR_PRODUCT_IDS)
  | none => false

/-- A line sets `hasOtherProducts` exactly when its product identifier is in
neither identifier set. -/
def isOther (cfg : Config) (l : CartLine) : Bool :=
  match lineProductId l with
  | some pid => decide (pid ∉ cfg.MYSTERY_BOX_IDS ∧ pid ∉ cfg.DOLLAR_PRODUCT_IDS)
  | none => false

/-- The bucket-A quantity total of a line list, as the loop accumulates it
(JS addition, so a bucket-A line with a missing quantity makes it `NaN`). -/
def bucketASum (cfg : Config) (lines : List CartLine) : JSNum :=
  lines.foldl (fun a l => if isBucketA cfg l then jsAdd a l.quantity else a)
    (JSNum.num 0)

/-- Bucket-A identifier one of the selected (test) configuration. -/
def MB1 : String := "gid://shopify/Product/8953675907329"

/-- Bucket-A identifier two of the selected (test) configuration. -/
def MB2 : String := "gid://shopify/Product/8953675940097"

/-- Bucket-B identifier one of the selected (test) configuration. -/
def DP1 : String := "gid://shopify/Product/8953676398849"

/-- Bucket-B identifier two of the selected (test) configuration. -/
def DP2 : String := "gid://shopify/Product/8953676103937"

/-- An identifier outside both buckets (used by the repository's tests). -/
def OTHER1 : String := "gid://shopify/Product/9999999999999"

/-- A well-formed `ProductVariant` cart line with the given identifier and
quantity (mirrors the test suite's `createCartLine`). -/
def mkLine (pid : String) (qty : Int) : CartLine :=
  { quantity := some qty
    merchandise := some
      { typename := "ProductVariant"
        product := some { id := some pid } } }

/-- An input with the given lines and step (mirrors the test suite's
`createInput`). -/
def mkInput (lines : List CartLine) (step : String) : Input :=
  { buyerJourney := some { step := some step }
    cart := { lines := lines } }

/-- The rule region of the evaluation, expressed through `bucketASum` and the
two presence predicates; proved below to agree with the fold the source
performs. -/
def specErrors (cfg : Config) (lines : List CartLine) : List ValidationError :=
  if jsGt (bucketASum cfg lines) 0 then
    (if jsGt (bucketASum cfg lines) 1 then [rule1Error] else []) ++
    (if lines.any (isBucketB cfg) then [rule2Error] else []) ++
    (if lines.any (isOther cfg) = false ∧ lines.any (isBucketB cfg) = false then
      [rule3Error] else [])
  else []

theorem processLine_mystery (cfg : Config) (t : Tally) (l : CartLine) :
    (processLine cfg t l).mysteryBoxQuantity =
      if isBucketA cfg l then jsAdd t.mysteryBoxQuantity l.quantity
      else t.mysteryBoxQuantity := by
  unfold processLine isBucketA
  cases h : lineProductId l with
  | none => simp
  | some pid =>
    by_cases hA : pid ∈ cfg.MYSTERY_BOX_IDS
    · simp [hA]
    · by_cases hB : pid ∈ cfg.DOLLAR_PRODUCT_IDS <;> simp [hA, hB]

theorem processLine_dollar (cfg : Config) (t : Tally) (l : CartLine) :
    (processLine cfg t l).dollarProductExists =
      (t.dollarProductExists || isBucketB cfg l) := by
  unfold processLine isBucketB
  cases h : lineProductId l with
  | none => simp
  | some pid =>
    by_cases hA : pid ∈ cfg.MYSTERY_BOX_IDS
    · simp [hA]
    · by_cases hB : pid ∈ cfg.DOLLAR_PRODUCT_IDS <;> simp [hA, hB]

theorem processLine_other (cfg : Config) (t : Tally) (l : CartLine) :
    (processLine cfg t l).hasOtherProducts =
      (t.hasOtherProducts || isOther cfg l) := by
  unfold processLine isOther
  cases h : lineProductId l with
  | none => simp
  | some pid =>
    by_cases hA : pid ∈ cfg.MYSTERY_BOX_IDS
    · simp [hA]
    · by_cases hB : pid ∈ cfg.DOLLAR_PRODUCT_IDS <;> simp [hA, hB]

theorem foldl_mystery (cfg : Config) (lines : List CartLine) (t : Tally) :
    (lines.foldl (processLine cfg) t).mysteryBoxQuantity =
      lines.foldl (fun a l => if isBucketA cfg l then jsAdd a l.quantity else a)
        t.mysteryBoxQuantity := by
  induction lines generalizing t with
  | nil => rfl
  | cons l ls ih => simp only [List.foldl_cons, ih, processLine_mystery]

theorem foldl_dollar (cfg : Config) (lines : List CartLine) (t : Tally) :
    (lines.foldl (processLine cfg) t).dollarProductExists =
      (t.dollarProductExists || lines.any (isBucketB cfg)) := by
  induction lines generalizing t with
  | nil => simp
  | cons l ls ih =>
    simp only [List.foldl_cons, ih, processLine_dollar, List.any_cons,
      Bool.or_assoc]

theorem foldl_other (cfg : Config) (lines : List CartLine) (t : Tally) :
    (lines.foldl (processLine cfg) t).hasOtherProducts =
      (t.hasOtherProducts || lines.any (isOther cfg)) := by
  induction lines generalizing t with
  | nil => simp
  | cons l ls ih =>
    simp only [List.foldl_cons, ih, processLine_other, List.any_cons,
      Bool.or_assoc]

theorem run_of_phase (input : Input)
    (h : stepOf input = some "CHECKOUT_INTERACTION" ∨
      stepOf input = some "CHECKOUT_COMPLETION") :
    cartValidationsGenerateRun input =
      { operations := [{ validationAdd :=
          { errors := specErrors currentConfig input.cart.lines } }] } := by
  unfold cartValidationsGenerateRun specErrors bucketASum
  rw [if_neg (not_not_intro h)]
  simp only [foldl_mystery, foldl_dollar, foldl_other, initTally, Bool.false_or]

theorem run_of_not_phase (input : Input)
    (h : ¬ (stepOf input = some "CHECKOUT_INTERACTION" ∨
      stepOf input = some "CHECKOUT_COMPLETION")) :
    cartValidationsGenerateRun input =
      { operations := [{ validationAdd := { errors := [] } }] } := by
  unfold cartValidationsGenerateRun
  rw [if_pos h]

theorem errorsOf_of_phase (input : Input)
    (h : stepOf input = some "CHECKOUT_INTERACTION" ∨
      stepOf input = some "CHECKOUT_COMPLETION") :
    errorsOf input = specErrors currentConfig input.cart.lines := by
  unfold errorsOf
  rw [run_of_phase input h]
  simp

theorem errorsOf_of_not_phase (input : Input)
    (h : ¬ (stepOf input = some "CHECKOUT_INTERACTION" ∨
      stepOf input = some "CHECKOUT_COMPLETION")) :
    errorsOf input = [] := by
  unfold errorsOf
  rw [run_of_not_phase input h]
  simp

theorem specErrors_target (cfg : Config) (lines : List CartLine) :
    ∀ e ∈ specErrors cfg lines, e.target = "cart" := by
  intro e he
  unfold specErrors at he
  split at he
  · simp only [List.mem_append] at he
    rcases he with (h1 | h2) | h3
    · split at h1 <;> simp_all [rule1Error]
    · split at h2 <;> simp_all [rule2Error]
    · split at h3 <;> simp_all [rule3Error]
  · simp at he

/-- C1: when the checkout-stage indicator is absent or is neither
`CHECKOUT_INTERACTION` nor `CHECKOUT_COMPLETION`, the result is a single
`validationAdd` operation with an empty error list, whatever the cart
holds. -/
theorem stage_gate_empty_errors (input : Input)
    (h : stepOf input ≠ some "CHECKOUT_INTERACTION" ∧
      stepOf input ≠ some "CHECKOUT_COMPLETION") :
    cartValidationsGenerateRun input =
      { operations := [{ validationAdd := { errors := [] } }] } :=
  run_of_not_phase input (by
    rintro (hs | hs)
    · exact h.1 hs
    · exact h.2 hs)

/-- Witness for C1 at an input in the `CART` stage holding a bucket-A line of
quantity 2. -/
theorem stage_gate_empty_errors_witness :
    cartValidationsGenerateRun (mkInput [mkLine MB1 2] "CART") =
      { operations := [{ validationAdd := { errors := [] } }] } :=
  stage_gate_empty_errors (mkInput [mkLine MB1 2] "CART") (by decide)

/-- C5: the cart holding exactly one bucket-A line of quantity 2, evaluated
at stage `CHECKOUT_INTERACTION`, yields exactly the Rule-1 error followed by
the Rule-3 error. -/
theorem scenario_bucketA_qty_two_alone :
    errorsOf (mkInput [mkLine MB1 2] "CHECKOUT_INTERACTION") =
      [rule1Error, rule3Error] := by decide

/-- C8: every result holds exactly one operation, that operation is a
`validationAdd` carrying the accumulated error list, and every error in the
list targets the fixed string `"cart"`. -/
theorem result_single_operation_target_cart (input : Input) :
    (cartValidationsGenerateRun input).operations =
      [{ validationAdd := { errors := errorsOf input } }] ∧
    ∀ e ∈ errorsOf input, e.target = "cart" := by
  by_cases h : stepOf input = some "CHECKOUT_INTERACTION" ∨
      stepOf input = some "CHECKOUT_COMPLETION"
  · refine ⟨?_, ?_⟩
    · rw [run_of_phase input h, errorsOf_of_phase input h]
    · intro e he
      rw [errorsOf_of_phase input h] at he
      exact specErrors_target currentConfig input.cart.lines e he
  · refine ⟨?_, ?_⟩
    · rw [run_of_not_phase input h, errorsOf_of_not_phase input h]
    · intro e he
      rw [errorsOf_of_not_phase input h] at he
      simp at he

/-- C9: the Rule-2 and Rule-3 errors never co-occur in a result, and the
error list never has more than two entries. -/
theorem rule2_rule3_exclusive_and_short (input : Input) :
    ¬ (rule2Error ∈ errorsOf input ∧ rule3Error ∈ errorsOf input) ∧
      (errorsOf input).length ≤ 2 := by
  by_cases h : stepOf input = some "CHECKOUT_INTERACTION" ∨
      stepOf input = some "CHECKOUT_COMPLETION"
  · rw [errorsOf_of_phase input h]
    unfold specErrors
    split
    · split <;> split <;> split <;>
        simp_all [rule1Error, rule2Error, rule3Error]
    · simp
  · rw [errorsOf_of_not_phase input h]
    simp

theorem dollar_not_mystery {s : String}
    (hs : s ∈ currentConfig.DOLLAR_PRODUCT_IDS) :
    s ∉ currentConfig.MYSTERY_BOX_IDS := by
  simp only [currentConfig, ENVIRONMENT, CONFIG_test, if_pos, List.mem_cons,
    List.not_mem_nil, or_false] at hs ⊢
  rcases hs with h | h <;> subst h <;> decide

/-- C2: at a recognized checkout stage, whenever the bucket-A quantity total
is a number greater than 1, the error list holds the Rule-1 error. -/
theorem rule1_of_bucketA_total_gt_one (input : Input) (n : Int)
    (hphase : stepOf input = some "CHECKOUT_INTERACTION" ∨
      stepOf input = some "CHECKOUT_COMPLETION")
    (hsum : bucketASum currentConfig input.cart.lines = JSNum.num n)
    (hn : 1 < n) :
    rule1Error ∈ errorsOf input := by
  rw [errorsOf_of_phase input hphase]
  unfold specErrors
  rw [hsum]
  have h0 : jsGt (JSNum.num n) 0 = true := by
    simp only [jsGt, decide_eq_true_eq]; omega
  have h1 : jsGt (JSNum.num n) 1 = true := by
    simp only [jsGt, decide_eq_true_eq]; omega
  simp [h0, h1]

/-- Witness for C2: a cart with a single bucket-A line of quantity 2. -/
theorem rule1_of_bucketA_total_gt_one_witness :
    rule1Error ∈ errorsOf (mkInput [mkLine MB1 2] "CHECKOUT_INTERACTION") :=
  rule1_of_bucketA_total_gt_one (mkInput [mkLine MB1 2] "CHECKOUT_INTERACTION")
    2 (Or.inl rfl) (by decide) (by decide)

/-- C3: at a recognized checkout stage, with bucket-A total equal to 1 and a
line whose product identifier is in bucket-B, the error list holds the
Rule-2 error and not the Rule-3 error. -/
theorem rule2_of_bucketB_present (input : Input)
    (hphase : stepOf input = some "CHECKOUT_INTERACTION" ∨
      stepOf input = some "CHECKOUT_COMPLETION")
    (hsum : bucketASum currentConfig input.cart.lines = JSNum.num 1)
    (hB : ∃ l ∈ input.cart.lines, ∃ pid, lineProductId l = some pid ∧
      pid ∈ currentConfig.DOLLAR_PRODUCT_IDS) :
    rule2Error ∈ errorsOf input ∧ rule3Error ∉ errorsOf input := by
  have hd : input.cart.lines.any (isBucketB currentConfig) = true := by
    rcases hB with ⟨l, hl, pid, hpid, hmem⟩
    refine List.any_eq_true.mpr ⟨l, hl, ?_⟩
    unfold isBucketB
    rw [hpid]
    simp [hmem, dollar_not_mystery hmem]
  rw [errorsOf_of_phase input hphase]
  unfold specErrors
  rw [hsum, hd]
  simp [jsGt, rule2Error, rule3Error]

/-- Witness for C3: a bucket-A line of quantity 1 next to a bucket-B line. -/
theorem rule2_of_bucketB_present_witness :
    rule2Error ∈ errorsOf (mkInput [mkLine MB1 1, mkLine DP1 1]
        "CHECKOUT_INTERACTION") ∧
      rule3Error ∉ errorsOf (mkInput [mkLine MB1 1, mkLine DP1 1]
        "CHECKOUT_INTERACTION") :=
  rule2_of_bucketB_present (mkInput [mkLine MB1 1, mkLine DP1 1]
      "CHECKOUT_INTERACTION")
    (Or.inl rfl) (by decide)
    ⟨mkLine DP1 1, by decide, DP1, by decide, by decide⟩

/-- C4: at a recognized checkout stage, with bucket-A total equal to 1, no
bucket-B line, and at least one line matching neither set, the error list is
empty. -/
theorem no_errors_of_single_bucketA_with_other (input : Input)
    (hphase : stepOf input = some "CHECKOUT_INTERACTION" ∨
      stepOf input = some "CHECKOUT_COMPLETION")
    (hsum : bucketASum currentConfig input.cart.lines = JSNum.num 1)
    (hnoB : ∀ l ∈ input.cart.lines, ∀ pid, lineProductId l = some pid →
      pid ∉ currentConfig.DOLLAR_PRODUCT_IDS)
    (hother : ∃ l ∈ input.cart.lines, ∃ pid, lineProductId l = some pid ∧
      pid ∉ currentConfig.MYSTERY_BOX_IDS ∧
      pid ∉ currentConfig.DOLLAR_PRODUCT_IDS) :
    errorsOf input = [] := by
  have hd : input.cart.lines.any (isBucketB currentConfig) = false := by
    rw [List.any_eq_false]
    intro l hl
    unfold isBucketB
    cases hp : lineProductId l with
    | none => simp
    | some pid =>
      simp only [decide_eq_true_eq, not_and]
      intro _
      exact hnoB l hl pid hp
  have ho : input.cart.lines.any (isOther currentConfig) = true := by
    rcases hother with ⟨l, hl, pid, hpid, hA, hB⟩
    refine List.any_eq_true.mpr ⟨l, hl, ?_⟩
    unfold isOther
    rw [hpid]
    simp [hA, hB]
  rw [errorsOf_of_phase input hphase]
  unfold specErrors
  rw [hsum, hd, ho]
  simp [jsGt]

/-- Witness for C4: a bucket-A line of quantity 1 next to an unrelated
product line. -/
theorem no_errors_of_single_bucketA_with_other_witness :
    errorsOf (mkInput [mkLine MB1 1, mkLine OTHER1 1]
      "CHECKOUT_INTERACTION") = [] :=
  no_errors_of_single_bucketA_with_other
    (mkInput [mkLine MB1 1, mkLine OTHER1 1] "CHECKOUT_INTERACTION")
    (Or.inl rfl) (by decide) (by decide)
    ⟨mkLine OTHER1 1, by decide, OTHER1, by decide, by decide, by decide⟩

/-- C6 counterexample: a cart holding exactly one bucket-A line with quantity
0, at stage `CHECKOUT_INTERACTION`, satisfies every hypothesis of the claim
(a bucket-A line is present, no bucket-B line, no other line) yet the result
carries no Rule-3 error at all: the rule region is gated on
`mysteryBoxQuantity > 0`, which a zero total fails. -/
theorem rule3_quantity_zero_counterexample :
    (∃ l ∈ (mkInput [mkLine MB1 0] "CHECKOUT_INTERACTION").cart.lines,
      isBucketA currentConfig l = true) ∧
    (∀ l ∈ (mkInput [mkLine MB1 0] "CHECKOUT_INTERACTION").cart.lines,
      isBucketB currentConfig l = false) ∧
    (∀ l ∈ (mkInput [mkLine MB1 0] "CHECKOUT_INTERACTION").cart.lines,
      isOther currentConfig l = false) ∧
    stepOf (mkInput [mkLine MB1 0] "CHECKOUT_INTERACTION") =
      some "CHECKOUT_INTERACTION" ∧
    rule3Error ∉ errorsOf (mkInput [mkLine MB1 0] "CHECKOUT_INTERACTION") := by
  decide

/-- C6 amended: Rule 3 is gated on a positive bucket-A quantity total, not on
mere presence: at a recognized checkout stage, if the bucket-A total is a
number greater than 0 and the cart has no bucket-B line and no line matching
neither set, the error list holds the Rule-3 error. -/
theorem rule3_of_bucketA_pos_solo (input : Input) (n : Int)
    (hphase : stepOf input = some "CHECKOUT_INTERACTION" ∨
      stepOf input = some "CHECKOUT_COMPLETION")
    (hsum : bucketASum currentConfig input.cart.lines = JSNum.num n)
    (hn : 0 < n)
    (hnoB : ∀ l ∈ input.cart.lines, ∀ pid, lineProductId l = some pid →
      pid ∉ currentConfig.DOLLAR_PRODUCT_IDS)
    (hnoOther : ∀ l ∈ input.cart.lines, ∀ pid, lineProductId l = some pid →
      pid ∈ currentConfig.MYSTERY_BOX_IDS ∨
      pid ∈ currentConfig.DOLLAR_PRODUCT_IDS) :
    rule3Error ∈ errorsOf input := by
  have hd : input.cart.lines.any (isBucketB currentConfig) = false := by
    rw [List.any_eq_false]
    intro l hl
    unfold isBucketB
    cases hp : lineProductId l with
    | none => simp
    | some pid =>
      simp only [decide_eq_true_eq, not_and]
      intro _
      exact hnoB l hl pid hp
  have ho : input.cart.lines.any (isOther currentConfig) = false := by
    rw [List.any_eq_false]
    intro l hl
    unfold isOther
    cases hp : lineProductId l with
    | none => simp
    | some pid =>
      simp only [decide_eq_true_eq, not_and]
      intro hA
      rcases hnoOther l hl pid hp with h | h
      · exact absurd h hA
      · exact fun hB => hB h
  have h0 : jsGt (JSNum.num n) 0 = true := by
    simp only [jsGt, decide_eq_true_eq]; omega
  rw [errorsOf_of_phase input hphase]
  unfold specErrors
  rw [hsum, hd, ho]
  simp [h0]

/-- Witness for the amended C6: a lone bucket-A line of quantity 1 at stage
`CHECKOUT_COMPLETION`. -/
theorem rule3_of_bucketA_pos_solo_witness :
    rule3Error ∈ errorsOf (mkInput [mkLine MB1 1] "CHECKOUT_COMPLETION") :=
  rule3_of_bucketA_pos_solo (mkInput [mkLine MB1 1] "CHECKOUT_COMPLETION") 1
    (Or.inr rfl) (by decide) (by decide) (by decide) (by decide)

/-- A malformed bucket-A line lacking the `quantity` field. -/
def noQtyBucketALine : CartLine :=
  { quantity := none
    merchandise := some
      { typename := "ProductVariant"
        product := some { id := some MB1 } } }

/-- An unrelated-product line lacking the `quantity` field. -/
def noQtyOtherLine : CartLine :=
  { quantity := none
    merchandise := some
      { typename := "ProductVariant"
        product := some { id := some OTHER1 } } }

/-- C7 counterexample: a bucket-A line with a missing quantity is neither
ignored nor treated as an unrelated product: next to a bucket-A line of
quantity 2 it drives the bucket-A total to `NaN` and suppresses every rule,
while dropping it would give the Rule-1 and Rule-3 errors and treating it as
an unrelated product would give the Rule-1 error. -/
theorem malformed_quantity_counterexample :
    errorsOf (mkInput [noQtyBucketALine, mkLine MB1 2]
      "CHECKOUT_INTERACTION") = [] ∧
    errorsOf (mkInput [mkLine MB1 2] "CHECKOUT_INTERACTION") =
      [rule1Error, rule3Error] ∧
    errorsOf (mkInput [noQtyOtherLine, mkLine MB1 2]
      "CHECKOUT_INTERACTION") = [rule1Error] := by
  decide

/-- C7 amended: the function is total over all modelled inputs, and a line
from which no product identifier can be read (missing merchandise, a
non-`ProductVariant` kind, a missing product, or a missing or empty
identifier) is skipped by the loop without affecting the evaluation of the
remaining lines; a line with an identifier but a missing quantity is not
covered, since it poisons the bucket-A total. -/
theorem merchandise_malformed_ignored (input : Input)
    (pre post : List CartLine) (l : CartLine)
    (hsplit : input.cart.lines = pre ++ l :: post)
    (hmal : lineProductId l = none) :
    cartValidationsGenerateRun input =
      cartValidationsGenerateRun
        { buyerJourney := input.buyerJourney
          cart := { lines := pre ++ post } } := by
  have hskip : ∀ t : Tally, processLine currentConfig t l = t := by
    intro t
    unfold processLine
    rw [hmal]
  have hfold : ∀ t : Tally,
      (pre ++ l :: post).foldl (processLine currentConfig) t =
        (pre ++ post).foldl (processLine currentConfig) t := by
    intro t
    rw [List.foldl_append, List.foldl_append, List.foldl_cons, hskip]
  unfold cartValidationsGenerateRun
  simp only [stepOf, hsplit, hfold]

/-- Witness for the amended C7: a line with no merchandise object is dropped
from a cart that also holds a lone bucket-A line. -/
theorem merchandise_malformed_ignored_witness :
    cartValidationsGenerateRun (mkInput
        [{ quantity := some 1, merchandise := none }, mkLine MB1 1]
        "CHECKOUT_INTERACTION") =
      cartValidationsGenerateRun
        { buyerJourney := some { step := some "CHECKOUT_INTERACTION" }
          cart := { lines := [] ++ [mkLine MB1 1] } } :=
  merchandise_malformed_ignored
    (mkInput [{ quantity := some 1, merchandise := none }, mkLine MB1 1]
      "CHECKOUT_INTERACTION")
    [] [mkLine MB1 1] { quantity := some 1, merchandise := none }
    rfl rfl

theorem jsAdd_right_comm (m : JSNum) (a b : Option Int) :
    jsAdd (jsAdd m a) b = jsAdd (jsAdd m b) a := by
  cases m <;> cases a <;> cases b <;> simp [jsAdd, Int.add_right_comm]

theorem processLine_comm (cfg : Config) (t : Tally) (l1 l2 : CartLine) :
    processLine cfg (processLine cfg t l1) l2 =
      processLine cfg (processLine cfg t l2) l1 := by
  unfold processLine
  rcases h1 : lineProductId l1 with _ | p1 <;>
    rcases h2 : lineProductId l2 with _ | p2 <;> simp only [h1, h2]
  by_cases hA1 : p1 ∈ cfg.MYSTERY_BOX_IDS <;>
    by_cases hA2 : p2 ∈ cfg.MYSTERY_BOX_IDS <;>
    by_cases hB1 : p1 ∈ cfg.DOLLAR_PRODUCT_IDS <;>
    by_cases hB2 : p2 ∈ cfg.DOLLAR_PRODUCT_IDS <;>
    cases t <;> simp [hA1, hA2, hB1, hB2, jsAdd_right_comm]

theorem foldl_processLine_perm (cfg : Config) {l1 l2 : List CartLine}
    (p : l1.Perm l2) (t : Tally) :
    l1.foldl (processLine cfg) t = l2.foldl (processLine cfg) t := by
  induction p generalizing t with
  | nil => rfl
  | cons x _ ih => simp only [List.foldl_cons]; exact ih _
  | swap x y l => simp only [List.foldl_cons, processLine_comm]
  | trans _ _ ih1 ih2 => exact (ih1 t).trans (ih2 t)

/-- C10: the result is invariant under any permutation of the cart lines,
error order included. -/
theorem run_perm_invariant (input : Input) (lines2 : List CartLine)
    (h : input.cart.lines.Perm lines2) :
    cartValidationsGenerateRun
        { buyerJourney := input.buyerJourney
          cart := { lines := lines2 } } =
      cartValidationsGenerateRun input := by
  have hfold := foldl_processLine_perm currentConfig h initTally
  unfold cartValidationsGenerateRun
  simp only [stepOf, hfold]

/-- Witness for C10: swapping a two-line cart leaves the result unchanged. -/
theorem run_perm_invariant_witness :
    cartValidationsGenerateRun
        { buyerJourney := some { step := some "CHECKOUT_INTERACTION" }
          cart := { lines := [mkLine OTHER1 1, mkLine MB1 1] } } =
      cartValidationsGenerateRun
        (mkInput [mkLine MB1 1, mkLine OTHER1 1] "CHECKOUT_INTERACTION") :=
  run_perm_invariant
    (mkInput [mkLine MB1 1, mkLine OTHER1 1] "CHECKOUT_INTERACTION")
    [mkLine OTHER1 1, mkLine MB1 1]
    (List.Perm.swap (mkLine OTHER1 1) (mkLine MB1 1) [])

end CartValidation
